import Mathlib

set_option maxHeartbeats 4000000
set_option maxRecDepth 4000

namespace QuicFrame

/-- Modelled from the spec: QUIC variable length integer encoder (RFC 9000 section 16,
spec section 4.1). The helper quic_put_var lives in number.h, which is not under src.
The encoder chooses the smallest length class that holds the value and writes it big
endian, the top two bits of the first byte selecting the class. -/
def quic_put_var (n : Nat) : List Nat :=
  if n < 64 then [n]
  else if n < 16384 then [64 + n / 256, n % 256]
  else if n < 1073741824 then
    [128 + n / 16777216, n / 65536 % 256, n / 256 % 256, n % 256]
  else
    [192 + n / 72057594037927936 % 64, n / 281474976710656 % 256,
     n / 1099511627776 % 256, n / 4294967296 % 256, n / 16777216 % 256,
     n / 65536 % 256, n / 256 % 256, n % 256]

/-- Modelled from the spec: length in bytes of the VarInt encoding (quic_var_len in
number.h, not under src). -/
def quic_var_len (n : Nat) : Nat :=
  if n < 64 then 1
  else if n < 16384 then 2
  else if n < 1073741824 then 4
  else 8

/-- Modelled from the spec: QUIC variable length integer decoder (quic_get_var in
number.h, not under src). Peeks the first byte, derives the class from its top two
bits, requires enough remaining bytes, reads big endian with the length bits masked
out of the first byte, and returns the value together with the unread rest. Returns
none on truncation. -/
def quic_get_var : List Nat → Option (Nat × List Nat)
  | [] => none
  | b :: r =>
    if b % 256 < 64 then some (b % 256, r)
    else if b % 256 < 128 then
      match r with
      | b1 :: r1 => some (b % 64 * 256 + b1 % 256, r1)
      | [] => none
    else if b % 256 < 192 then
      match r with
      | b1 :: b2 :: b3 :: r1 =>
        some (b % 64 * 16777216 + b1 % 256 * 65536 + b2 % 256 * 256 + b3 % 256, r1)
      | _ => none
    else
      match r with
      | b1 :: b2 :: b3 :: b4 :: b5 :: b6 :: b7 :: r1 =>
        some (b % 64 * 72057594037927936 + b1 % 256 * 281474976710656 +
              b2 % 256 * 1099511627776 + b3 % 256 * 4294967296 + b4 % 256 * 16777216 +
              b5 % 256 * 65536 + b6 % 256 * 256 + b7 % 256, r1)
      | _ => none

theorem quic_put_var_small (n : Nat) (h : n < 64) : quic_put_var n = [n] := by
  simp [quic_put_var, h]

theorem quic_get_put (n : Nat) (r : List Nat) (h : n < 4611686018427387904) :
    quic_get_var (quic_put_var n ++ r) = some (n, r) := by
  unfold quic_put_var
  split_ifs with h1 h2 h3
  · simp only [List.cons_append, List.nil_append, quic_get_var]
    rw [if_pos (by omega)]
    simp only [Option.some.injEq, Prod.mk.injEq]
    exact ⟨by omega, trivial⟩
  · simp only [List.cons_append, List.nil_append, quic_get_var]
    rw [if_neg (by omega), if_pos (by omega)]
    simp only [Option.some.injEq, Prod.mk.injEq]
    exact ⟨by omega, trivial⟩
  · simp only [List.cons_append, List.nil_append, quic_get_var]
    rw [if_neg (by omega), if_neg (by omega), if_pos (by omega)]
    simp only [Option.some.injEq, Prod.mk.injEq]
    exact ⟨by omega, trivial⟩
  · simp only [List.cons_append, List.nil_append, quic_get_var]
    rw [if_neg (by omega), if_neg (by omega), if_neg (by omega)]
    simp only [Option.some.injEq, Prod.mk.injEq]
    exact ⟨by omega, trivial⟩

theorem quic_put_var_length (n : Nat) : (quic_put_var n).length = quic_var_len n := by
  unfold quic_put_var quic_var_len
  split_ifs <;> rfl

/-- Wrapping 64 bit subtraction, as performed on the u64 locals of frame.c. -/
def sub64 (a b : Nat) : Nat :=
  (a + 18446744073709551616 - b % 18446744073709551616) % 18446744073709551616

/-- Wrapping 32 bit subtraction, as performed on the u32 locals of frame.c. -/
def sub32 (a b : Nat) : Nat :=
  (a + 4294967296 - b % 4294967296) % 4294967296

/-- Frame type constants. The numeric values are the indices of the quic_frame_ops
dispatch table in frame.c (0x00 padding through 0x1E handshake_done). -/
def QUIC_FRAME_BASE_MAX : Nat := 30

def QUIC_FRAME_RESET_STREAM : Nat := 4

def QUIC_FRAME_CRYPTO : Nat := 6

def QUIC_FRAME_MAX_DATA : Nat := 16

def QUIC_FRAME_MAX_STREAM_DATA : Nat := 17

def QUIC_FRAME_MAX_STREAMS_BIDI : Nat := 18

def QUIC_FRAME_MAX_STREAMS_UNI : Nat := 19

def QUIC_FRAME_NEW_CONNECTION_ID : Nat := 24

def QUIC_FRAME_RETIRE_CONNECTION_ID : Nat := 25

def QUIC_FRAME_PATH_RESPONSE : Nat := 27

def QUIC_FRAME_CONNECTION_CLOSE : Nat := 28

def QUIC_FRAME_CONNECTION_CLOSE_APP : Nat := 29

def QUIC_FRAME_ACK_ECN : Nat := 3

/-- Modelled from the spec: symbolic state codes from the headers that are not under
src. The claims only compare these symbolically, so the numeric values are free. -/
def QUIC_STREAM_RECV_STATE_RESET_RECVD : Nat := 5

def QUIC_STREAM_SEND_STATE_RESET_SENT : Nat := 6

def QUIC_STATE_USER_CLOSED : Nat := 3

def EINVAL : Int := 22

def ENOMEM : Int := 12

def EPIPE : Int := 32

def EPROTONOSUPPORT : Int := 93

structure GapBlock where
  start : Nat
  stop : Nat
deriving DecidableEq, Repr

structure PnMap where
  maxPnSeen : Nat := 0
  minPnSeen : Nat := 0
  maxPnTs : Nat := 0
  basePn : Nat := 0
  gabs : List GapBlock := []
deriving DecidableEq, Repr

structure StreamSend where
  offset : Nat := 0
  maxBytes : Nat := 0
  dataBlocked : Bool := false
  state : Nat := 0
deriving DecidableEq, Repr

structure StreamRecv where
  maxBytes : Nat := 0
  bytes : Nat := 0
  window : Nat := 0
  state : Nat := 0
deriving DecidableEq, Repr

structure QuicStream where
  id : Nat
  send : StreamSend := {}
  recv : StreamRecv := {}
deriving DecidableEq, Repr

structure CidEntry where
  seqno : Nat
  cid : List Nat
  tok : List Nat
deriving DecidableEq, Repr

structure CidSet where
  entries : List CidEntry := []
  maxCount : Nat := 0
deriving DecidableEq, Repr

structure PathAddr where
  entropy : List Nat := []
  pending : Bool := false
deriving DecidableEq, Repr

/-- Socket and UDP side effects that cross the collaborator boundary, recorded as
events (sk_state_change, sk_write_space, quic_udp_sock_put, address updates). -/
inductive Ev where
  | stateChange
  | writeSpace
  | releaseUdp
  | zeroAddr (isLocal : Bool)
  | setAddr (isLocal : Bool)
deriving DecidableEq, Repr

/-- Connection state visible to frame.c through the collaborator interfaces of
section 6 of the spec: inbound and outbound queues, stream table, connection id
sets, path state, packet number map and the socket fields. -/
structure Conn where
  ticket : List Nat := []
  token : List Nat := []
  streams : List QuicStream := []
  streamActive : Int := -1
  sendMaxStreamsUni : Nat := 0
  sendStreamsUni : Nat := 0
  sendMaxStreamsBidi : Nat := 0
  sendStreamsBidi : Nat := 0
  recvMaxStreamsUni : Nat := 0
  recvMaxStreamsBidi : Nat := 0
  outqMaxBytes : Nat := 0
  outqDataBlocked : Bool := false
  outqCloseErrcode : Nat := 0
  outqCloseFrame : Nat := 0
  outqClosePhrase : Option (List Nat) := none
  inqMaxBytes : Nat := 0
  inqBytes : Nat := 0
  inqWindow : Nat := 0
  srcCids : CidSet := {}
  dstCids : CidSet := {}
  srcPath : PathAddr := {}
  dstPath : PathAddr := {}
  skErr : Int := 0
  skState : Nat := 0
  pnmap : PnMap := {}
  ackDelayExponent : Nat := 0
  isServ : Bool := false
deriving DecidableEq, Repr

/-- Environment oracles for the nondeterministic inputs of frame.c: allocator
outcomes (alloc_skb, skb_clone, kmemdup, the CidSet append), the random number
generator, the contents of the uninitialized token stack buffer of
quic_frame_new_connection_id_create, the value an out of bounds read would return,
the clock, and the packet budget quic_packet_max_payload. -/
structure Env where
  allocOK : Bool := true
  copyOK : Bool := true
  appendOK : Bool := true
  appendErr : Int := -12
  reasmOK : Bool := true
  reasmErr : Int := -12
  rnd : Nat → Nat := fun _ => 0
  rndTok : Nat → Nat := fun _ => 0
  stackTok : Nat → Nat := fun _ => 0
  junk : Nat := 0
  now : Nat := 0
  maxPayload : Nat := 1200

def rndBytes (f : Nat → Nat) (n : Nat) : List Nat :=
  (List.range n).map fun i => f i % 256

/-- Parsed or emitted frame fields: exactly the locals each encoder writes to the
wire and each decoder reads back from it. -/
inductive Frame where
  | padding (n : Nat)
  | ping
  | ack (largest delay count range : Nat)
  | resetStream (sid err finalSz : Nat)
  | stopSending (sid err : Nat)
  | crypto (data : List Nat)
  | newToken (data : List Nat)
  | stream (sid off : Nat) (fin : Bool) (data : List Nat)
  | maxData (m : Nat)
  | maxStreamData (sid m : Nat)
  | maxStreamsBidi (m : Nat)
  | maxStreamsUni (m : Nat)
  | dataBlocked (m : Nat)
  | streamDataBlocked (sid m : Nat)
  | streamsBlockedBidi (m : Nat)
  | streamsBlockedUni (m : Nat)
  | newConnId (seqno prior : Nat) (cid tok : List Nat)
  | retireConnId (seqno : Nat)
  | pathChallenge (e : List Nat)
  | pathResponse (e : List Nat)
  | connClose (transport : Bool) (err ftype plen : Nat) (phrase : List Nat)
  | handshakeDone
deriving DecidableEq, Repr, Inhabited

/-- Outbound buffer: the encoded bytes plus the QUIC_SND_CB metadata slots that
frame.c fills (frame_type, data_bytes, stream_offset, err_code, stream), and the
frame fields the encoder wrote, surfaced for the round trip statements. -/
structure Skb where
  bytes : List Nat
  frameType : Nat := 0
  dataBytes : Nat := 0
  streamOffset : Nat := 0
  errCode : Nat := 0
  streamId : Option Nat := none
  fr : Frame := Frame.ping
deriving DecidableEq, Repr

structure MsgInfo where
  sid : Nat
  flag : Nat := 0
  msg : List Nat := []
deriving DecidableEq, Repr

/-- Data argument of quic_frame_create, one constructor per pointer type the void
pointer is cast to in frame.c. -/
inductive CreateData where
  | noData
  | padLen (n : Nat)
  | tok (t : List Nat)
  | msg (m : MsgInfo)
  | num (n : Nat)
  | num32 (n : Nat)
  | errinfo (sid err : Nat)
  | strm (s : QuicStream)
  | inqD
  | outqD
  | entropy (e : List Nat)
  | path (dstSide : Bool)
deriving DecidableEq, Repr

def quic_stream_find (streams : List QuicStream) (sid : Nat) : Option QuicStream :=
  streams.find? fun s => s.id == sid

def streamsUpdate (streams : List QuicStream) (sid : Nat)
    (f : QuicStream → QuicStream) : List QuicStream :=
  streams.map fun s => if s.id == sid then f s else s

/-- Modelled from the spec: quic_stream_recv_get (Streams collaborator, section 6,
not under src) looks a stream up or creates it. Only the lookup path is modelled;
every claim is settled on states in which the stream already exists, where the two
agree. -/
def quic_stream_recv_get (streams : List QuicStream) (sid : Nat) : Option QuicStream :=
  quic_stream_find streams sid

/-- Modelled from the spec: quic_stream_send_get (Streams collaborator, section 6,
not under src), lookup path only, as for quic_stream_recv_get. -/
def quic_stream_send_get (streams : List QuicStream) (sid : Nat) : Option QuicStream :=
  quic_stream_find streams sid

/-- Modelled from the spec: CidSet collaborator (section 6, not under src). Entries
are ordered by seqno and dense, so the last entry carries the highest number. -/
def quic_connection_id_last_number (s : CidSet) : Nat :=
  (s.entries.getLast?.map CidEntry.seqno).getD 0

def quic_connection_id_first_number (s : CidSet) : Nat :=
  (s.entries.head?.map CidEntry.seqno).getD 0

/-- Modelled from the spec: CidSet append (section 6: append seqno, cid and an
optional reset token). The call sites in frame.c pass no reset token, and those
calls store an empty token slot. -/
def quic_connection_id_append (s : CidSet) (seqno : Nat) (cid tok : List Nat) : CidSet :=
  { s with entries := s.entries ++ [{ seqno := seqno, cid := cid, tok := tok }] }

def quic_connection_id_remove (s : CidSet) (seqno : Nat) : CidSet :=
  { s with entries := s.entries.filter fun e => e.seqno != seqno }

/-- Gap blocks of an ACK frame serialized from the highest block down, as the loop
of quic_frame_ack_create walks i from num_gabs - 1 down to 1 and then emits the
lowest block against the base. The argument list is the reversed gab array. -/
def gabsEncRev : List GapBlock → List Nat
  | [] => []
  | [g0] => quic_put_var (g0.stop - g0.start) ++ quic_put_var (g0.start - 2)
  | gi :: gim1 :: rest =>
    quic_put_var (gi.stop - gi.start) ++ quic_put_var (gi.start - gim1.stop - 2) ++
      gabsEncRev (gim1 :: rest)

/-- Embedding of quic_frame_ack_create (frame.c lines 28 to 71). -/
def quic_frame_ack_create (env : Env) (st : Conn) (_data : CreateData) (type : Nat) :
    Option Skb × Conn :=
  let map := st.pnmap
  let gabs := map.gabs
  let numGabs := gabs.length
  let largest := map.maxPnSeen % 4294967296
  let smallest :=
    if numGabs ≠ 0 then (map.basePn + (gabs.getLast?.map GapBlock.stop).getD 0) % 4294967296
    else map.minPnSeen % 4294967296
  let range := sub32 largest smallest
  if !env.allocOK then (none, st)
  else
    let pnTs := sub32 env.now map.maxPnTs / 2 ^ st.ackDelayExponent
    let bytes := quic_put_var type ++ quic_put_var largest ++ quic_put_var pnTs ++
      quic_put_var numGabs ++ quic_put_var range ++ gabsEncRev gabs.reverse
    (some { bytes := bytes, fr := Frame.ack largest pnTs numGabs range }, st)

/-- Embedding of quic_frame_ping_create (frame.c lines 73 to 88). -/
def quic_frame_ping_create (env : Env) (st : Conn) (_data : CreateData) (type : Nat) :
    Option Skb × Conn :=
  if !env.allocOK then (none, st)
  else (some { bytes := quic_put_var type, fr := Frame.ping }, st)

/-- Embedding of quic_frame_padding_create (frame.c lines 90 to 102): frame_len zero
bytes after the single type byte. -/
def quic_frame_padding_create (env : Env) (st : Conn) (data : CreateData) (type : Nat) :
    Option Skb × Conn :=
  match data with
  | CreateData.padLen n =>
    if !env.allocOK then (none, st)
    else (some { bytes := quic_put_var type ++ List.replicate n 0, fr := Frame.padding n }, st)
  | _ => (none, st)

/-- Embedding of quic_frame_new_token_create (frame.c lines 104 to 119). -/
def quic_frame_new_token_create (env : Env) (st : Conn) (data : CreateData) (type : Nat) :
    Option Skb × Conn :=
  match data with
  | CreateData.tok t =>
    if !env.allocOK then (none, st)
    else (some { bytes := quic_put_var type ++ quic_put_var t.length ++ t,
                 fr := Frame.newToken t }, st)
  | _ => (none, st)

/-- Embedding of quic_frame_stream_create (frame.c lines 121 to 173): header bit
selection (OFF iff send.offset is nonzero, LEN always, FIN iff requested and the
whole message fits the packet budget), truncation to the budget, and the
send.offset update after a successful buffer fill. -/
def quic_frame_stream_create (env : Env) (st : Conn) (data : CreateData) (type : Nat) :
    Option Skb × Conn :=
  match data with
  | CreateData.msg info =>
    match quic_stream_find st.streams info.sid with
    | none => (none, st)
    | some stream =>
      let maxFrameLen := env.maxPayload % 4294967296
      let hlen1 := 1 + quic_var_len stream.id
      let type1 := if stream.send.offset ≠ 0 then type ||| 4 else type
      let hlen2 := if stream.send.offset ≠ 0 then hlen1 + quic_var_len stream.send.offset
                   else hlen1
      let type2 := type1 ||| 2
      let hlen := hlen2 + quic_var_len maxFrameLen
      let fits := info.msg.length ≤ sub32 maxFrameLen hlen
      let type3 := if fits ∧ info.flag % 2 = 1 then type2 ||| 1 else type2
      let msgLen := if fits then info.msg.length else sub32 maxFrameLen hlen
      if !env.allocOK then (none, st)
      else if !(env.copyOK && decide (msgLen ≤ info.msg.length)) then (none, st)
      else
        let bytes := quic_put_var type3 ++ quic_put_var stream.id ++
          (if stream.send.offset ≠ 0 then quic_put_var stream.send.offset else []) ++
          quic_put_var msgLen ++ info.msg.take msgLen
        (some { bytes := bytes, frameType := type3, dataBytes := msgLen,
                streamOffset := if stream.send.offset ≠ 0 then stream.send.offset else 0,
                streamId := some stream.id,
                fr := Frame.stream stream.id stream.send.offset (decide (type3 % 2 = 1))
                        (info.msg.take msgLen) },
         { st with streams := streamsUpdate st.streams info.sid fun s =>
             { s with send := { s.send with offset := s.send.offset + msgLen } } })
  | _ => (none, st)

/-- Embedding of quic_frame_handshake_done_create (frame.c lines 175 to 190). -/
def quic_frame_handshake_done_create (env : Env) (st : Conn) (_data : CreateData)
    (type : Nat) : Option Skb × Conn :=
  if !env.allocOK then (none, st)
  else (some { bytes := quic_put_var type, fr := Frame.handshakeDone }, st)

/-- Embedding of quic_frame_crypto_create (frame.c lines 192 to 208): offset is
always zero, payload is the session ticket. -/
def quic_frame_crypto_create (env : Env) (st : Conn) (data : CreateData) (type : Nat) :
    Option Skb × Conn :=
  match data with
  | CreateData.tok t =>
    if !env.allocOK then (none, st)
    else (some { bytes := quic_put_var type ++ quic_put_var 0 ++ quic_put_var t.length ++ t,
                 fr := Frame.crypto t }, st)
  | _ => (none, st)

/-- Embedding of quic_frame_retire_connection_id_create (frame.c lines 210 to 228):
writes type and seqno, and removes the seqno from the destination set after the
buffer is allocated. -/
def quic_frame_retire_connection_id_create (env : Env) (st : Conn) (data : CreateData)
    (type : Nat) : Option Skb × Conn :=
  match data with
  | CreateData.num n =>
    if !env.allocOK then (none, st)
    else (some { bytes := quic_put_var type ++ quic_put_var n, fr := Frame.retireConnId n },
          { st with dstCids := quic_connection_id_remove st.dstCids n })
  | _ => (none, st)

/-- Embedding of quic_frame_new_connection_id_create (frame.c lines 230 to 261).
seqno is the source set last number plus one; get_random_bytes fills only conn_id,
while the 16 byte token array is written to the wire from the uninitialized stack
buffer (env.stackTok). The new id is appended to the source set before the buffer
is returned; on append failure the buffer is dropped and none returned. -/
def quic_frame_new_connection_id_create (env : Env) (st : Conn) (data : CreateData)
    (type : Nat) : Option Skb × Conn :=
  match data with
  | CreateData.num prior =>
    let seqno := quic_connection_id_last_number st.srcCids + 1
    let connId := rndBytes env.rnd 16
    let tok := rndBytes env.stackTok 16
    let bytes := quic_put_var type ++ quic_put_var seqno ++ quic_put_var prior ++
      quic_put_var 16 ++ connId ++ tok
    if !env.allocOK then (none, st)
    else if !env.appendOK then (none, st)
    else (some { bytes := bytes, fr := Frame.newConnId seqno prior connId tok },
          { st with srcCids := quic_connection_id_append st.srcCids seqno connId [] })
  | _ => (none, st)

/-- Embedding of quic_frame_path_response_create (frame.c lines 263 to 279). -/
def quic_frame_path_response_create (env : Env) (st : Conn) (data : CreateData)
    (type : Nat) : Option Skb × Conn :=
  match data with
  | CreateData.entropy e =>
    if !env.allocOK then (none, st)
    else (some { bytes := quic_put_var type ++ e.take 8, fr := Frame.pathResponse (e.take 8) },
          st)
  | _ => (none, st)

/-- Embedding of quic_frame_path_challenge_create (frame.c lines 281 to 300): fresh
random entropy is stored in the path before the allocation, so it persists even
when the allocation fails. -/
def quic_frame_path_challenge_create (env : Env) (st : Conn) (data : CreateData)
    (type : Nat) : Option Skb × Conn :=
  match data with
  | CreateData.path dstSide =>
    let ent := rndBytes env.rnd 8
    let st1 := if dstSide then { st with dstPath := { st.dstPath with entropy := ent } }
               else { st with srcPath := { st.srcPath with entropy := ent } }
    if !env.allocOK then (none, st1)
    else (some { bytes := quic_put_var type ++ ent, fr := Frame.pathChallenge ent }, st1)
  | _ => (none, st)

/-- Embedding of quic_frame_reset_stream_create (frame.c lines 302 to 332): final
size is the current send offset; clears the active stream marker when it points at
this stream. -/
def quic_frame_reset_stream_create (env : Env) (st : Conn) (data : CreateData)
    (type : Nat) : Option Skb × Conn :=
  match data with
  | CreateData.errinfo sid err =>
    match quic_stream_find st.streams sid with
    | none => (none, st)
    | some stream =>
      if !env.allocOK then (none, st)
      else
        let st1 := if st.streamActive = (stream.id : Int) then { st with streamActive := -1 }
                   else st
        (some { bytes := quic_put_var type ++ quic_put_var sid ++ quic_put_var err ++
                  quic_put_var stream.send.offset,
                errCode := err, streamId := some stream.id,
                fr := Frame.resetStream sid err stream.send.offset }, st1)
  | _ => (none, st)

/-- Embedding of quic_frame_stop_sending_create (frame.c lines 334 to 352). -/
def quic_frame_stop_sending_create (env : Env) (st : Conn) (data : CreateData)
    (type : Nat) : Option Skb × Conn :=
  match data with
  | CreateData.errinfo sid err =>
    if !env.allocOK then (none, st)
    else (some { bytes := quic_put_var type ++ quic_put_var sid ++ quic_put_var err,
                 fr := Frame.stopSending sid err }, st)
  | _ => (none, st)

/-- Embedding of quic_frame_max_data_create (frame.c lines 354 to 371): reads the
inbound queue max_bytes through the data pointer. -/
def quic_frame_max_data_create (env : Env) (st : Conn) (data : CreateData) (type : Nat) :
    Option Skb × Conn :=
  match data with
  | CreateData.inqD =>
    if !env.allocOK then (none, st)
    else (some { bytes := quic_put_var type ++ quic_put_var st.inqMaxBytes,
                 fr := Frame.maxData st.inqMaxBytes }, st)
  | _ => (none, st)

/-- Embedding of quic_frame_max_stream_data_create (frame.c lines 373 to 391). -/
def quic_frame_max_stream_data_create (env : Env) (st : Conn) (data : CreateData)
    (type : Nat) : Option Skb × Conn :=
  match data with
  | CreateData.strm s =>
    if !env.allocOK then (none, st)
    else (some { bytes := quic_put_var type ++ quic_put_var s.id ++
                   quic_put_var s.recv.maxBytes,
                 fr := Frame.maxStreamData s.id s.recv.maxBytes }, st)
  | _ => (none, st)

/-- Embedding of quic_frame_max_streams_uni_create (frame.c lines 393 to 410). -/
def quic_frame_max_streams_uni_create (env : Env) (st : Conn) (data : CreateData)
    (type : Nat) : Option Skb × Conn :=
  match data with
  | CreateData.num m =>
    if !env.allocOK then (none, st)
    else (some { bytes := quic_put_var type ++ quic_put_var m, fr := Frame.maxStreamsUni m },
          st)
  | _ => (none, st)

/-- Embedding of quic_frame_max_streams_bidi_create (frame.c lines 412 to 429). -/
def quic_frame_max_streams_bidi_create (env : Env) (st : Conn) (data : CreateData)
    (type : Nat) : Option Skb × Conn :=
  match data with
  | CreateData.num m =>
    if !env.allocOK then (none, st)
    else (some { bytes := quic_put_var type ++ quic_put_var m, fr := Frame.maxStreamsBidi m },
          st)
  | _ => (none, st)

/-- Embedding of quic_frame_connection_close_create (frame.c lines 431 to 456): err
code, a frame type field for 0x1C only, then the phrase length (strlen plus one for
the trailing NUL when a phrase is set, else zero) and the phrase bytes. -/
def quic_frame_connection_close_create (env : Env) (st : Conn) (_data : CreateData)
    (type : Nat) : Option Skb × Conn :=
  let phraseLen := match st.outqClosePhrase with
    | some ph => ph.length + 1
    | none => 0
  let phraseBytes := match st.outqClosePhrase with
    | some ph => ph ++ [0]
    | none => []
  if !env.allocOK then (none, st)
  else
    (some { bytes := quic_put_var type ++ quic_put_var st.outqCloseErrcode ++
              (if type = QUIC_FRAME_CONNECTION_CLOSE then quic_put_var st.outqCloseFrame
               else []) ++
              quic_put_var phraseLen ++ phraseBytes,
            fr := Frame.connClose (type = QUIC_FRAME_CONNECTION_CLOSE) st.outqCloseErrcode
                    (if type = QUIC_FRAME_CONNECTION_CLOSE then st.outqCloseFrame else 0)
                    phraseLen phraseBytes }, st)

/-- Embedding of quic_frame_data_blocked_create (frame.c lines 458 to 475): reads
the outbound queue max_bytes through the data pointer. -/
def quic_frame_data_blocked_create (env : Env) (st : Conn) (data : CreateData)
    (type : Nat) : Option Skb × Conn :=
  match data with
  | CreateData.outqD =>
    if !env.allocOK then (none, st)
    else (some { bytes := quic_put_var type ++ quic_put_var st.outqMaxBytes,
                 fr := Frame.dataBlocked st.outqMaxBytes }, st)
  | _ => (none, st)

/-- Embedding of quic_frame_stream_data_blocked_create (frame.c lines 477 to 495). -/
def quic_frame_stream_data_blocked_create (env : Env) (st : Conn) (data : CreateData)
    (type : Nat) : Option Skb × Conn :=
  match data with
  | CreateData.strm s =>
    if !env.allocOK then (none, st)
    else (some { bytes := quic_put_var type ++ quic_put_var s.id ++
                   quic_put_var s.send.maxBytes,
                 fr := Frame.streamDataBlocked s.id s.send.maxBytes }, st)
  | _ => (none, st)

/-- Embedding of quic_frame_streams_blocked_uni_create (frame.c lines 497 to 513):
the wire value is the u32 limit shifted right by two, plus one. -/
def quic_frame_streams_blocked_uni_create (env : Env) (st : Conn) (data : CreateData)
    (type : Nat) : Option Skb × Conn :=
  match data with
  | CreateData.num32 m =>
    if !env.allocOK then (none, st)
    else
      let v := m % 4294967296 / 4 + 1
      (some { bytes := quic_put_var type ++ quic_put_var v, fr := Frame.streamsBlockedUni v },
       st)
  | _ => (none, st)

/-- Embedding of quic_frame_streams_blocked_bidi_create (frame.c lines 515 to 531). -/
def quic_frame_streams_blocked_bidi_create (env : Env) (st : Conn) (data : CreateData)
    (type : Nat) : Option Skb × Conn :=
  match data with
  | CreateData.num32 m =>
    if !env.allocOK then (none, st)
    else
      let v := m % 4294967296 / 4 + 1
      (some { bytes := quic_put_var type ++ quic_put_var v, fr := Frame.streamsBlockedBidi v },
       st)
  | _ => (none, st)

/-- Encoder half of the quic_frame_ops dispatch table (frame.c lines 1057 to 1089). -/
def quic_frame_ops_create (env : Env) (st : Conn) (data : CreateData) (type : Nat) :
    Option Skb × Conn :=
  match type with
  | 0 => quic_frame_padding_create env st data type
  | 1 => quic_frame_ping_create env st data type
  | 2 => quic_frame_ack_create env st data type
  | 3 => quic_frame_ack_create env st data type
  | 4 => quic_frame_reset_stream_create env st data type
  | 5 => quic_frame_stop_sending_create env st data type
  | 6 => quic_frame_crypto_create env st data type
  | 7 => quic_frame_new_token_create env st data type
  | 8 | 9 | 10 | 11 | 12 | 13 | 14 | 15 => quic_frame_stream_create env st data type
  | 16 => quic_frame_max_data_create env st data type
  | 17 => quic_frame_max_stream_data_create env st data type
  | 18 => quic_frame_max_streams_bidi_create env st data type
  | 19 => quic_frame_max_streams_uni_create env st data type
  | 20 => quic_frame_data_blocked_create env st data type
  | 21 => quic_frame_stream_data_blocked_create env st data type
  | 22 => quic_frame_streams_blocked_bidi_create env st data type
  | 23 => quic_frame_streams_blocked_uni_create env st data type
  | 24 => quic_frame_new_connection_id_create env st data type
  | 25 => quic_frame_retire_connection_id_create env st data type
  | 26 => quic_frame_path_challenge_create env st data type
  | 27 => quic_frame_path_response_create env st data type
  | 28 => quic_frame_connection_close_create env st data type
  | 29 => quic_frame_connection_close_create env st data type
  | 30 => quic_frame_handshake_done_create env st data type
  | _ => (none, st)

/-- Embedding of quic_frame_create (frame.c lines 1128 to 1143): rejects type bytes
above QUIC_FRAME_BASE_MAX before touching the table, and defaults the buffer
frame_type to the requested type when the encoder left it unset. -/
def quic_frame_create (env : Env) (st : Conn) (type : Nat) (data : CreateData) :
    Option Skb × Conn :=
  if type > QUIC_FRAME_BASE_MAX then (none, st)
  else
    match quic_frame_ops_create env st data type with
    | (none, st1) => (none, st1)
    | (some skb, st1) =>
      (some (if skb.frameType = 0 then { skb with frameType := type } else skb), st1)

structure Reasm where
  sid : Nat
  fin : Bool
  offset : Nat
  data : List Nat
deriving DecidableEq, Repr

/-- Result of one decoder run: the return value (bytes consumed, or a negative
error), the updated connection state, the frames enqueued via quic_outq_ctrl_tail,
the quic_outq_retransmit_check calls, the reassembly handoffs, the socket events,
the parsed frame fields, and whether a read past the end of the input happened. -/
structure DecOut where
  ret : Int
  st : Conn
  ctrl : List Skb := []
  rtx : List (Nat × Nat × Nat × Nat) := []
  reasm : List Reasm := []
  events : List Ev := []
  parsed : Option Frame := none
  oobRead : Bool := false
deriving Repr

def DecOut.inval (st : Conn) : DecOut := { ret := -EINVAL, st := st }

/-- Embedding of quic_frame_crypto_process (frame.c lines 533 to 556). The TLS
NewSessionTicket marker byte at p is dereferenced before any check that length is
at least one, so when the input ends right after the length field the read is one
byte past the end (surfaced as oobRead, with env.junk as the value read). -/
def quic_frame_crypto_process (env : Env) (st : Conn) (pl : List Nat) (_ty : Nat) :
    DecOut :=
  match quic_get_var pl with
  | none => DecOut.inval st
  | some (offset, r1) =>
    if offset ≠ 0 then DecOut.inval st
    else
      match quic_get_var r1 with
      | none => DecOut.inval st
      | some (length, r2) =>
        if length > r2.length then DecOut.inval st
        else
          let marker := match r2 with
            | [] => env.junk
            | b :: _ => b
          let oob := r2.isEmpty
          if marker ≠ 4 then { ret := -EINVAL, st := st, oobRead := oob }
          else if !env.allocOK then { ret := -ENOMEM, st := st, oobRead := oob }
          else
            { ret := Int.ofNat (pl.length - (r2.length - length)),
              st := { st with ticket := r2.take length },
              parsed := some (Frame.crypto (r2.take length)),
              oobRead := oob }

/-- Shared tail of quic_frame_stream_process (frame.c lines 574 to 601), entered
after the stream id and the optional offset are read, with the payload length
either parsed (LEN bit) or defaulted to the whole rest: stream lookup, clone of the
payload slice, and the reassembly handoff. -/
def streamTail (env : Env) (st : Conn) (pl : List Nat) (streamId offset payloadLen : Nat)
    (r3 : List Nat) (ty : Nat) : DecOut :=
  if payloadLen > r3.length then DecOut.inval st
  else
    match quic_stream_recv_get st.streams streamId with
    | none => DecOut.inval st
    | some _stream =>
      if !env.allocOK then { ret := -ENOMEM, st := st }
      else
        let data := r3.take payloadLen
        if !env.reasmOK then { ret := env.reasmErr, st := st }
        else
          { ret := Int.ofNat (pl.length - (r3.length - payloadLen)), st := st,
            reasm := [{ sid := streamId, fin := decide (ty % 2 = 1), offset := offset,
                        data := data }],
            parsed := some (Frame.stream streamId offset (decide (ty % 2 = 1)) data) }

/-- Embedding of quic_frame_stream_process (frame.c lines 558 to 602): reads the
stream id, the offset when the OFF bit is set, the payload length when the LEN bit
is set, then the shared tail. -/
def quic_frame_stream_process (env : Env) (st : Conn) (pl : List Nat) (ty : Nat) :
    DecOut :=
  match quic_get_var pl with
  | none => DecOut.inval st
  | some (streamId, r1) =>
    if ty % 8 / 4 = 1 then
      match quic_get_var r1 with
      | none => DecOut.inval st
      | some (offset, r2) =>
        if ty % 4 / 2 = 1 then
          match quic_get_var r2 with
          | none => DecOut.inval st
          | some (payloadLen, r3) => streamTail env st pl streamId offset payloadLen r3 ty
        else streamTail env st pl streamId offset r2.length r2 ty
    else
      if ty % 4 / 2 = 1 then
        match quic_get_var r1 with
        | none => DecOut.inval st
        | some (payloadLen, r3) => streamTail env st pl streamId 0 payloadLen r3 ty
      else streamTail env st pl streamId 0 r1.length r1 ty

/-- Loop body of quic_frame_ack_process (frame.c lines 619 to 626): reads count
pairs of gap and range, derives the next largest and smallest with wrapping u64
arithmetic, and records one retransmit_check call per pair. Returns the calls, the
unread rest, and whether every pair parsed. -/
def ackRanges : Nat → Nat → List Nat → List (Nat × Nat × Nat × Nat) × List Nat × Bool
  | 0, _, bytes => ([], bytes, true)
  | c + 1, smallest, bytes =>
    match quic_get_var bytes with
    | none => ([], bytes, false)
    | some (gap, b1) =>
      match quic_get_var b1 with
      | none => ([], b1, false)
      | some (range, b2) =>
        let l := sub64 (sub64 smallest gap) 2
        let s2 := sub64 l range
        let r := ackRanges c s2 b2
        ((l, s2, 0, 0) :: r.1, r.2.1, r.2.2)

/-- Embedding of quic_frame_ack_process (frame.c lines 604 to 636): rejects a range
count above 16, seeds RTT with retransmit_check on the first range, walks the extra
ranges, and for type 0x03 reads and discards the three ECN counts. -/
def quic_frame_ack_process (_env : Env) (st : Conn) (pl : List Nat) (ty : Nat) : DecOut :=
  match quic_get_var pl with
  | none => DecOut.inval st
  | some (largest, r1) =>
    match quic_get_var r1 with
    | none => DecOut.inval st
    | some (delay, r2) =>
      match quic_get_var r2 with
      | none => DecOut.inval st
      | some (count, r3) =>
        if count > 16 then DecOut.inval st
        else
          match quic_get_var r3 with
          | none => DecOut.inval st
          | some (range, r4) =>
            let smallest := sub64 largest range
            let first := (largest, smallest, largest, delay)
            let lp := ackRanges count smallest r4
            if !lp.2.2 then { ret := -EINVAL, st := st, rtx := first :: lp.1 }
            else
              let r5 := lp.2.1
              if ty = QUIC_FRAME_ACK_ECN then
                match quic_get_var r5 with
                | none => { ret := -EINVAL, st := st, rtx := first :: lp.1 }
                | some (_, r6) =>
                  match quic_get_var r6 with
                  | none => { ret := -EINVAL, st := st, rtx := first :: lp.1 }
                  | some (_, r7) =>
                    match quic_get_var r7 with
                    | none => { ret := -EINVAL, st := st, rtx := first :: lp.1 }
                    | some (_, r8) =>
                      { ret := Int.ofNat (pl.length - r8.length), st := st,
                        rtx := first :: lp.1,
                        parsed := some (Frame.ack largest delay count range) }
              else
                { ret := Int.ofNat (pl.length - r5.length), st := st, rtx := first :: lp.1,
                  parsed := some (Frame.ack largest delay count range) }

/-- Retirement loop of quic_frame_new_connection_id_process (frame.c lines 666 to
671): one RETIRE_CONNECTION_ID frame per seqno from first up to prior, each built
through quic_frame_create (which also removes the seqno from the destination set)
and enqueued. Returns the state, the enqueued frames, and whether every creation
succeeded. -/
def retireLoop (env : Env) : Nat → Nat → Conn → Conn × List Skb × Bool
  | 0, _, st => (st, [], true)
  | f + 1, first, st =>
    match quic_frame_create env st QUIC_FRAME_RETIRE_CONNECTION_ID (CreateData.num first) with
    | (none, st1) => (st1, [], false)
    | (some skb, st1) =>
      let r := retireLoop env f (first + 1) st1
      (r.1, skb :: r.2.1, r.2.2)

/-- Embedding of quic_frame_new_connection_id_process (frame.c lines 638 to 676):
validates length plus 16 against the remaining bytes, seqno against the destination
set last number plus one, and prior against seqno; appends the new id (the parsed
reset token is not passed to the append, per the stateless reset TODO); then
enqueues retirements for every seqno from the set first number up to prior. -/
def quic_frame_new_connection_id_process (env : Env) (st : Conn) (pl : List Nat)
    (_ty : Nat) : DecOut :=
  match quic_get_var pl with
  | none => DecOut.inval st
  | some (seqno, r1) =>
    match quic_get_var r1 with
    | none => DecOut.inval st
    | some (prior, r2) =>
      match quic_get_var r2 with
      | none => DecOut.inval st
      | some (length, r3) =>
        if length + 16 > r3.length then DecOut.inval st
        else
          let connId := r3.take length
          let tok := (r3.drop length).take 16
          if seqno ≠ quic_connection_id_last_number st.dstCids + 1 ∨ prior > seqno then
            DecOut.inval st
          else if !env.appendOK then { ret := env.appendErr, st := st }
          else
            let st1 := { st with dstCids := quic_connection_id_append st.dstCids seqno connId [] }
            let first := quic_connection_id_first_number st1.dstCids
            let consumed := Int.ofNat (pl.length - (r3.length - (length + 16)))
            let parsed := some (Frame.newConnId seqno prior connId tok)
            if prior ≤ first then { ret := consumed, st := st1, parsed := parsed }
            else
              let lp := retireLoop env (prior - first) first st1
              if !lp.2.2 then { ret := -ENOMEM, st := lp.1, ctrl := lp.2.1 }
              else { ret := consumed, st := lp.1, ctrl := lp.2.1, parsed := parsed }

/-- Embedding of quic_frame_retire_connection_id_process (frame.c lines 678 to 703):
requires seqno to be the source set first number and not the last, removes it, and
when fewer than max_count ids remain creates a fresh NEW_CONNECTION_ID (the
incremented seqno is handed to the encoder as its prior argument). -/
def quic_frame_retire_connection_id_process (env : Env) (st : Conn) (pl : List Nat)
    (_ty : Nat) : DecOut :=
  match quic_get_var pl with
  | none => DecOut.inval st
  | some (seqno, r1) =>
    let last := quic_connection_id_last_number st.srcCids
    let first := quic_connection_id_first_number st.srcCids
    if seqno ≠ first ∨ seqno = last then DecOut.inval st
    else
      let st1 := { st with srcCids := quic_connection_id_remove st.srcCids seqno }
      let consumed := Int.ofNat (pl.length - r1.length)
      let parsed := some (Frame.retireConnId seqno)
      if last - seqno ≥ st.srcCids.maxCount then { ret := consumed, st := st1, parsed := parsed }
      else
        match quic_frame_create env st1 QUIC_FRAME_NEW_CONNECTION_ID
            (CreateData.num (seqno + 1)) with
        | (none, st2) => { ret := -ENOMEM, st := st2 }
        | (some skb, st2) => { ret := consumed, st := st2, ctrl := [skb], parsed := parsed }

/-- Embedding of quic_frame_new_token_process (frame.c lines 705 to 723): duplicates
the token bytes first and replaces the stored token only when the copy exists. -/
def quic_frame_new_token_process (env : Env) (st : Conn) (pl : List Nat) (_ty : Nat) :
    DecOut :=
  match quic_get_var pl with
  | none => DecOut.inval st
  | some (length, r1) =>
    if length > r1.length then DecOut.inval st
    else if !env.allocOK then { ret := -ENOMEM, st := st }
    else
      { ret := Int.ofNat (pl.length - (r1.length - length)),
        st := { st with token := r1.take length },
        parsed := some (Frame.newToken (r1.take length)) }

/-- Embedding of quic_frame_handshake_done_process (frame.c lines 725 to 728). -/
def quic_frame_handshake_done_process (_env : Env) (st : Conn) (_pl : List Nat)
    (_ty : Nat) : DecOut :=
  { ret := 0, st := st, parsed := some Frame.handshakeDone }

/-- Embedding of quic_frame_padding_process (frame.c lines 730 to 733): consumes the
whole rest of the payload. -/
def quic_frame_padding_process (_env : Env) (st : Conn) (pl : List Nat) (_ty : Nat) :
    DecOut :=
  { ret := Int.ofNat pl.length, st := st, parsed := some (Frame.padding pl.length) }

/-- Embedding of quic_frame_ping_process (frame.c lines 735 to 738). -/
def quic_frame_ping_process (_env : Env) (st : Conn) (_pl : List Nat) (_ty : Nat) :
    DecOut :=
  { ret := 0, st := st, parsed := some Frame.ping }

/-- Embedding of quic_frame_path_challenge_process (frame.c lines 740 to 756):
requires eight bytes, copies the entropy and enqueues a PATH_RESPONSE with it. -/
def quic_frame_path_challenge_process (env : Env) (st : Conn) (pl : List Nat)
    (_ty : Nat) : DecOut :=
  if pl.length < 8 then DecOut.inval st
  else
    let entropy := pl.take 8
    match quic_frame_create env st QUIC_FRAME_PATH_RESPONSE (CreateData.entropy entropy) with
    | (none, st1) => { ret := -ENOMEM, st := st1 }
    | (some skb, st1) =>
      { ret := 8, st := st1, ctrl := [skb], parsed := some (Frame.pathChallenge entropy) }

/-- Embedding of quic_frame_reset_stream_process (frame.c lines 758 to 776). -/
def quic_frame_reset_stream_process (_env : Env) (st : Conn) (pl : List Nat) (_ty : Nat) :
    DecOut :=
  match quic_get_var pl with
  | none => DecOut.inval st
  | some (streamId, r1) =>
    match quic_get_var r1 with
    | none => DecOut.inval st
    | some (errcode, r2) =>
      match quic_get_var r2 with
      | none => DecOut.inval st
      | some (finalsz, r3) =>
        match quic_stream_recv_get st.streams streamId with
        | none => DecOut.inval st
        | some _stream =>
          { ret := Int.ofNat (pl.length - r3.length),
            st := { st with streams := streamsUpdate st.streams streamId fun s =>
              { s with recv := { s.recv with state := QUIC_STREAM_RECV_STATE_RESET_RECVD } } },
            parsed := some (Frame.resetStream streamId errcode finalsz) }

/-- Embedding of quic_frame_stop_sending_process (frame.c lines 778 to 804): creates
and enqueues the reciprocal RESET_STREAM and marks the stream send side reset. -/
def quic_frame_stop_sending_process (env : Env) (st : Conn) (pl : List Nat) (_ty : Nat) :
    DecOut :=
  match quic_get_var pl with
  | none => DecOut.inval st
  | some (streamId, r1) =>
    match quic_get_var r1 with
    | none => DecOut.inval st
    | some (errcode, r2) =>
      match quic_stream_send_get st.streams streamId with
      | none => DecOut.inval st
      | some _stream =>
        match quic_frame_create env st QUIC_FRAME_RESET_STREAM
            (CreateData.errinfo streamId errcode) with
        | (none, st1) => { ret := -ENOMEM, st := st1 }
        | (some nskb, st1) =>
          { ret := Int.ofNat (pl.length - r2.length),
            st := { st1 with streams := streamsUpdate st1.streams streamId fun s =>
              { s with send := { s.send with state := QUIC_STREAM_SEND_STATE_RESET_SENT } } },
            ctrl := [nskb],
            parsed := some (Frame.stopSending streamId errcode) }

/-- Embedding of quic_frame_max_data_process (frame.c lines 806 to 822). -/
def quic_frame_max_data_process (_env : Env) (st : Conn) (pl : List Nat) (_ty : Nat) :
    DecOut :=
  match quic_get_var pl with
  | none => DecOut.inval st
  | some (maxBytes, r1) =>
    let st1 := if maxBytes ≥ st.outqMaxBytes then
                 { st with outqMaxBytes := maxBytes, outqDataBlocked := false }
               else st
    { ret := Int.ofNat (pl.length - r1.length), st := st1,
      parsed := some (Frame.maxData maxBytes) }

/-- Embedding of quic_frame_max_stream_data_process (frame.c lines 824 to 845). -/
def quic_frame_max_stream_data_process (_env : Env) (st : Conn) (pl : List Nat)
    (_ty : Nat) : DecOut :=
  match quic_get_var pl with
  | none => DecOut.inval st
  | some (streamId, r1) =>
    match quic_get_var r1 with
    | none => DecOut.inval st
    | some (maxBytes, r2) =>
      match quic_stream_find st.streams streamId with
      | none => DecOut.inval st
      | some stream =>
        let st1 := if maxBytes ≥ stream.send.maxBytes then
            { st with streams := streamsUpdate st.streams streamId fun s =>
              { s with send := { s.send with maxBytes := maxBytes, dataBlocked := false } } }
          else st
        { ret := Int.ofNat (pl.length - r2.length), st := st1,
          parsed := some (Frame.maxStreamData streamId maxBytes) }

/-- Embedding of quic_frame_max_streams_uni_process (frame.c lines 847 to 868). -/
def quic_frame_max_streams_uni_process (_env : Env) (st : Conn) (pl : List Nat)
    (_ty : Nat) : DecOut :=
  match quic_get_var pl with
  | none => DecOut.inval st
  | some (max, r1) =>
    if max < st.sendMaxStreamsUni then
      { ret := Int.ofNat (pl.length - r1.length), st := st,
        parsed := some (Frame.maxStreamsUni max) }
    else
      { ret := Int.ofNat (pl.length - r1.length),
        st := { st with sendMaxStreamsUni := max, sendStreamsUni := max },
        events := [Ev.writeSpace],
        parsed := some (Frame.maxStreamsUni max) }

/-- Embedding of quic_frame_max_streams_bidi_process (frame.c lines 870 to 891). -/
def quic_frame_max_streams_bidi_process (_env : Env) (st : Conn) (pl : List Nat)
    (_ty : Nat) : DecOut :=
  match quic_get_var pl with
  | none => DecOut.inval st
  | some (max, r1) =>
    if max < st.sendMaxStreamsBidi then
      { ret := Int.ofNat (pl.length - r1.length), st := st,
        parsed := some (Frame.maxStreamsBidi max) }
    else
      { ret := Int.ofNat (pl.length - r1.length),
        st := { st with sendMaxStreamsBidi := max, sendStreamsBidi := max },
        events := [Ev.writeSpace],
        parsed := some (Frame.maxStreamsBidi max) }

/-- Shared tail of quic_frame_connection_close_process (frame.c lines 906 to 926),
entered after the err code and the optional frame type field are read: phrase
length validation (a nonempty phrase must be at most 80 bytes and NUL terminated),
then sk_err, USER_CLOSED and sk_state_change. -/
def connCloseTail (st : Conn) (pl : List Nat) (errCode ftype : Nat) (r2 : List Nat)
    (ty : Nat) : DecOut :=
  match quic_get_var r2 with
  | none => DecOut.inval st
  | some (phraseLen, r3) =>
    if phraseLen > r3.length then DecOut.inval st
    else if phraseLen ≠ 0 ∧ (phraseLen > 80 ∨ r3.getD (phraseLen - 1) 0 ≠ 0) then
      DecOut.inval st
    else
      { ret := Int.ofNat (pl.length - (r3.length - phraseLen)),
        st := { st with skErr := -EPIPE, skState := QUIC_STATE_USER_CLOSED },
        events := [Ev.stateChange],
        parsed := some (Frame.connClose (ty = QUIC_FRAME_CONNECTION_CLOSE) errCode ftype
                          phraseLen (r3.take phraseLen)) }

/-- Embedding of quic_frame_connection_close_process (frame.c lines 893 to 927):
reads the err code, for type 0x1C also the frame type field, then the shared
phrase tail. -/
def quic_frame_connection_close_process (_env : Env) (st : Conn) (pl : List Nat)
    (ty : Nat) : DecOut :=
  match quic_get_var pl with
  | none => DecOut.inval st
  | some (errCode, r1) =>
    if ty = QUIC_FRAME_CONNECTION_CLOSE then
      match quic_get_var r1 with
      | none => DecOut.inval st
      | some (ftype, r2) => connCloseTail st pl errCode ftype r2 ty
    else connCloseTail st pl errCode 0 r1 ty

/-- Embedding of quic_frame_data_blocked_process (frame.c lines 929 to 949):
advances the receive window to bytes plus window, emits MAX_DATA, and on emit
failure restores the previous max_bytes and returns minus ENOMEM. -/
def quic_frame_data_blocked_process (env : Env) (st : Conn) (pl : List Nat) (_ty : Nat) :
    DecOut :=
  match quic_get_var pl with
  | none => DecOut.inval st
  | some (maxBytes, r1) =>
    let recvMaxBytes := st.inqMaxBytes
    let st1 := { st with inqMaxBytes := st.inqBytes + st.inqWindow }
    match quic_frame_create env st1 QUIC_FRAME_MAX_DATA CreateData.inqD with
    | (none, st2) => { ret := -ENOMEM, st := { st2 with inqMaxBytes := recvMaxBytes } }
    | (some fskb, st2) =>
      { ret := Int.ofNat (pl.length - r1.length), st := st2, ctrl := [fskb],
        parsed := some (Frame.dataBlocked maxBytes) }

/-- Embedding of quic_frame_stream_data_blocked_process (frame.c lines 951 to 978):
advances the per stream receive limit and emits MAX_STREAM_DATA only when the limit
changed, restoring it when the emission fails. -/
def quic_frame_stream_data_blocked_process (env : Env) (st : Conn) (pl : List Nat)
    (_ty : Nat) : DecOut :=
  match quic_get_var pl with
  | none => DecOut.inval st
  | some (streamId, r1) =>
    match quic_get_var r1 with
    | none => DecOut.inval st
    | some (maxBytes, r2) =>
      match quic_stream_find st.streams streamId with
      | none => DecOut.inval st
      | some stream =>
        let recvMaxBytes := stream.recv.maxBytes
        let newMax := stream.recv.bytes + stream.recv.window
        let st1 := { st with streams := streamsUpdate st.streams streamId fun s =>
          { s with recv := { s.recv with maxBytes := newMax } } }
        let consumed := Int.ofNat (pl.length - r2.length)
        let parsed := some (Frame.streamDataBlocked streamId maxBytes)
        if recvMaxBytes ≠ newMax then
          match quic_frame_create env st1 QUIC_FRAME_MAX_STREAM_DATA
              (CreateData.strm { stream with recv := { stream.recv with maxBytes := newMax } }) with
          | (none, st2) =>
            { ret := -ENOMEM,
              st := { st2 with streams := streamsUpdate st2.streams streamId fun s =>
                { s with recv := { s.recv with maxBytes := recvMaxBytes } } } }
          | (some fskb, st2) =>
            { ret := consumed, st := st2, ctrl := [fskb], parsed := parsed }
        else { ret := consumed, st := st1, parsed := parsed }

/-- Embedding of quic_frame_streams_blocked_uni_process (frame.c lines 980 to 998). -/
def quic_frame_streams_blocked_uni_process (env : Env) (st : Conn) (pl : List Nat)
    (_ty : Nat) : DecOut :=
  match quic_get_var pl with
  | none => DecOut.inval st
  | some (max, r1) =>
    let consumed := Int.ofNat (pl.length - r1.length)
    let parsed := some (Frame.streamsBlockedUni max)
    if max < st.recvMaxStreamsUni then { ret := consumed, st := st, parsed := parsed }
    else
      match quic_frame_create env st QUIC_FRAME_MAX_STREAMS_UNI (CreateData.num max) with
      | (none, st1) => { ret := -ENOMEM, st := st1 }
      | (some fskb, st1) =>
        { ret := consumed, st := { st1 with recvMaxStreamsUni := max }, ctrl := [fskb],
          parsed := parsed }

/-- Embedding of quic_frame_streams_blocked_bidi_process (frame.c lines 1000 to
1018). -/
def quic_frame_streams_blocked_bidi_process (env : Env) (st : Conn) (pl : List Nat)
    (_ty : Nat) : DecOut :=
  match quic_get_var pl with
  | none => DecOut.inval st
  | some (max, r1) =>
    let consumed := Int.ofNat (pl.length - r1.length)
    let parsed := some (Frame.streamsBlockedBidi max)
    if max < st.recvMaxStreamsBidi then { ret := consumed, st := st, parsed := parsed }
    else
      match quic_frame_create env st QUIC_FRAME_MAX_STREAMS_BIDI (CreateData.num max) with
      | (none, st1) => { ret := -ENOMEM, st := st1 }
      | (some fskb, st1) =>
        { ret := consumed, st := { st1 with recvMaxStreamsBidi := max }, ctrl := [fskb],
          parsed := parsed }

/-- Embedding of quic_frame_path_response_process (frame.c lines 1020 to 1052):
compares the entropy against both path probes; on a match with a pending probe it
clears pending, releases the inactive UDP socket (source side only), zeroes the
inactive address slot and rebinds the socket address. -/
def quic_frame_path_response_process (_env : Env) (st : Conn) (pl : List Nat)
    (_ty : Nat) : DecOut :=
  if pl.length < 8 then DecOut.inval st
  else
    let entropy := pl.take 8
    let srcHit := st.srcPath.entropy = entropy ∧ st.srcPath.pending
    let st1 := if srcHit then { st with srcPath := { st.srcPath with pending := false } }
               else st
    let ev1 : List Ev := if srcHit then [Ev.releaseUdp, Ev.zeroAddr true, Ev.setAddr true]
              else []
    let dstHit := st1.dstPath.entropy = entropy ∧ st1.dstPath.pending
    let st2 := if dstHit then { st1 with dstPath := { st1.dstPath with pending := false } }
               else st1
    let ev2 : List Ev := if dstHit then [Ev.zeroAddr false, Ev.setAddr false] else []
    { ret := 8, st := st2, events := ev1 ++ ev2, parsed := some (Frame.pathResponse entropy) }

/-- Decoder half of the quic_frame_ops dispatch table (frame.c lines 1057 to 1089). -/
def quic_frame_ops_process (env : Env) (st : Conn) (pl : List Nat) (type : Nat) : DecOut :=
  match type with
  | 0 => quic_frame_padding_process env st pl type
  | 1 => quic_frame_ping_process env st pl type
  | 2 => quic_frame_ack_process env st pl type
  | 3 => quic_frame_ack_process env st pl type
  | 4 => quic_frame_reset_stream_process env st pl type
  | 5 => quic_frame_stop_sending_process env st pl type
  | 6 => quic_frame_crypto_process env st pl type
  | 7 => quic_frame_new_token_process env st pl type
  | 8 | 9 | 10 | 11 | 12 | 13 | 14 | 15 => quic_frame_stream_process env st pl type
  | 16 => quic_frame_max_data_process env st pl type
  | 17 => quic_frame_max_stream_data_process env st pl type
  | 18 => quic_frame_max_streams_bidi_process env st pl type
  | 19 => quic_frame_max_streams_uni_process env st pl type
  | 20 => quic_frame_data_blocked_process env st pl type
  | 21 => quic_frame_stream_data_blocked_process env st pl type
  | 22 => quic_frame_streams_blocked_bidi_process env st pl type
  | 23 => quic_frame_streams_blocked_uni_process env st pl type
  | 24 => quic_frame_new_connection_id_process env st pl type
  | 25 => quic_frame_retire_connection_id_process env st pl type
  | 26 => quic_frame_path_challenge_process env st pl type
  | 27 => quic_frame_path_response_process env st pl type
  | 28 => quic_frame_connection_close_process env st pl type
  | 29 => quic_frame_connection_close_process env st pl type
  | 30 => quic_frame_handshake_done_process env st pl type
  | _ => { ret := -EPROTONOSUPPORT, st := st }

/-- Modelled from the spec: quic_frame_ack_eliciting (frame.h classifier, section
4.7, not under src): every type except PADDING, ACK and CONNECTION_CLOSE. -/
def quic_frame_ack_eliciting (t : Nat) : Bool :=
  !(t == 0 || t == 2 || t == 3 || t == 28 || t == 29)

/-- Modelled from the spec: quic_frame_ack_immediate (frame.h classifier, section
4.7, not under src): at minimum STREAM, RESET_STREAM, STOP_SENDING, CRYPTO and
HANDSHAKE_DONE. -/
def quic_frame_ack_immediate (t : Nat) : Bool :=
  t == 4 || t == 5 || t == 6 || (8 ≤ t && t ≤ 15) || t == 30

/-- Modelled from the spec: quic_frame_non_probing (frame.h classifier, section 4.7,
not under src): every type except PATH_CHALLENGE, PATH_RESPONSE, NEW_CONNECTION_ID
and PADDING. -/
def quic_frame_non_probing (t : Nat) : Bool :=
  !(t == 0 || t == 24 || t == 26 || t == 27)

structure Pki where
  ackEliciting : Bool := false
  ackImmediate : Bool := false
  nonProbing : Bool := false
deriving DecidableEq, Repr

/-- Result of the frame processing loop: return value, final state, final per
packet flags, and the side effects of every processed frame in wire order. -/
structure ProcOut where
  ret : Int
  st : Conn
  pki : Pki
  ctrl : List Skb := []
  rtx : List (Nat × Nat × Nat × Nat) := []
  reasm : List Reasm := []
  events : List Ev := []
  oob : Bool := false
deriving Repr

/-- Loop body of quic_frame_process (frame.c lines 1099 to 1124): read a type byte,
reject types above QUIC_FRAME_BASE_MAX, run the decoder, stop on a negative return,
fold the classifier flags into pki, advance by the consumed count, and stop when
the payload is exhausted. The fuel argument only drives structural recursion; every
iteration consumes at least the type byte, so a fuel of the payload length (as
quic_frame_process passes) never runs out. -/
def procLoop (env : Env) : Nat → List Nat → Conn → Pki → ProcOut
  | _, [], st, pki => { ret := -EINVAL, st := st, pki := pki }
  | 0, _, st, pki => { ret := -EINVAL, st := st, pki := pki }
  | fuel + 1, t :: rest, st, pki =>
    if t > QUIC_FRAME_BASE_MAX then { ret := -EPROTONOSUPPORT, st := st, pki := pki }
    else
      let out := quic_frame_ops_process env st rest t
      if out.ret < 0 then
        { ret := out.ret, st := out.st, pki := pki, ctrl := out.ctrl, rtx := out.rtx,
          reasm := out.reasm, events := out.events, oob := out.oobRead }
      else
        let pki1 := if quic_frame_ack_eliciting t then
            { pki with ackEliciting := true,
                       ackImmediate := pki.ackImmediate || quic_frame_ack_immediate t }
          else pki
        let pki2 := if quic_frame_non_probing t then { pki1 with nonProbing := true } else pki1
        let rest2 := rest.drop out.ret.toNat
        if rest2.length = 0 then
          { ret := 0, st := out.st, pki := pki2, ctrl := out.ctrl, rtx := out.rtx,
            reasm := out.reasm, events := out.events, oob := out.oobRead }
        else
          let r := procLoop env fuel rest2 out.st pki2
          { ret := r.ret, st := r.st, pki := r.pki, ctrl := out.ctrl ++ r.ctrl,
            rtx := out.rtx ++ r.rtx, reasm := out.reasm ++ r.reasm,
            events := out.events ++ r.events, oob := out.oobRead || r.oob }

/-- Embedding of quic_frame_process (frame.c lines 1091 to 1126). -/
def quic_frame_process (env : Env) (st : Conn) (pl : List Nat) (pki : Pki) : ProcOut :=
  if pl.length = 0 then { ret := -EINVAL, st := st, pki := pki }
  else procLoop env pl.length pl st pki

/-- C9: for every type byte strictly greater than 0x1E, quic_frame_create returns
null without invoking any encoder and without any side effect on connection state:
the result is none and the state is returned untouched. -/
theorem c9_unsupported_type_create (env : Env) (st : Conn) (type : Nat)
    (data : CreateData) (h : type > QUIC_FRAME_BASE_MAX) :
    quic_frame_create env st type data = (none, st) := by
  simp [quic_frame_create, h]

theorem c9_unsupported_type_create_witness :
    31 > QUIC_FRAME_BASE_MAX ∧
      quic_frame_create {} {} 31 CreateData.noData = (none, ({} : Conn)) :=
  ⟨by decide, c9_unsupported_type_create {} {} 31 CreateData.noData (by decide)⟩

/-- C2: refuted by the code (code bug). quic_frame_crypto_process dereferences the
TLS message type marker byte before checking that the declared length is at least
one. On the packet payload 0x06 0x00 0x00 (a CRYPTO frame with offset 0 and length
0 ending the packet) the decoder reads the byte one past the end of the input, both
when the decoder runs alone on its two payload bytes and through the full
quic_frame_process loop. -/
theorem c2_crypto_reads_past_end :
    (quic_frame_crypto_process {} {} [0, 0] 6).oobRead = true ∧
      (quic_frame_process {} {} [6, 0, 0] {}).oob = true := by
  constructor <;> rfl

theorem connCloseTail_spec (st : Conn) (pl : List Nat) (errCode ftype plen : Nat)
    (tail : List Nat) (ty : Nat) (hplv : plen < 4611686018427387904)
    (hlen : plen ≤ tail.length) :
    (plen ≠ 0 ∧ (plen > 80 ∨ tail.getD (plen - 1) 0 ≠ 0) →
       connCloseTail st pl errCode ftype (quic_put_var plen ++ tail) ty =
         DecOut.inval st) ∧
    (plen = 0 ∨ (plen ≤ 80 ∧ tail.getD (plen - 1) 0 = 0) →
       connCloseTail st pl errCode ftype (quic_put_var plen ++ tail) ty =
         { ret := Int.ofNat (pl.length - (tail.length - plen)),
           st := { st with skErr := -EPIPE, skState := QUIC_STATE_USER_CLOSED },
           events := [Ev.stateChange],
           parsed := some (Frame.connClose (ty = QUIC_FRAME_CONNECTION_CLOSE) errCode
                             ftype plen (tail.take plen)) }) := by
  simp only [connCloseTail, quic_get_put plen _ hplv]
  constructor
  · intro hbad
    rw [if_neg (by omega), if_pos (by simpa using hbad)]
  · intro hgood
    rw [if_neg (by omega), if_neg ?_]
    rcases hgood with h | h
    · simp [h]
    · simp only [List.getD_eq_getElem?_getD] at h
      simp [h.2]
      omega

/-- C5: the CONNECTION_CLOSE decoder rejects (returns minus EINVAL with the state
untouched) any nonempty reason phrase whose length exceeds 80 or whose last byte is
not NUL; on a frame that passes validation it sets sk_err to the EPIPE code (in the
negative errno convention the code uses, per the spec wording EPIPE or language
equivalent), transitions the connection to USER_CLOSED and raises sk_state_change
to wake state change waiters. Stated for both close types, 0x1C with a frame type
field and 0x1D without. -/
theorem c5_connection_close (env : Env) (st : Conn) (ty err ftype plen : Nat)
    (tail : List Nat) (hty : ty = 28 ∨ ty = 29) (herr : err < 4611686018427387904)
    (hft : ftype < 4611686018427387904) (hplv : plen < 4611686018427387904)
    (hlen : plen ≤ tail.length) :
    (plen ≠ 0 ∧ (plen > 80 ∨ tail.getD (plen - 1) 0 ≠ 0) →
       quic_frame_connection_close_process env st
         (quic_put_var err ++
           (if ty = QUIC_FRAME_CONNECTION_CLOSE then quic_put_var ftype else []) ++
           quic_put_var plen ++ tail) ty = DecOut.inval st) ∧
    (plen = 0 ∨ (plen ≤ 80 ∧ tail.getD (plen - 1) 0 = 0) →
       (quic_frame_connection_close_process env st
         (quic_put_var err ++
           (if ty = QUIC_FRAME_CONNECTION_CLOSE then quic_put_var ftype else []) ++
           quic_put_var plen ++ tail) ty).st.skErr = -EPIPE ∧
       (quic_frame_connection_close_process env st
         (quic_put_var err ++
           (if ty = QUIC_FRAME_CONNECTION_CLOSE then quic_put_var ftype else []) ++
           quic_put_var plen ++ tail) ty).st.skState = QUIC_STATE_USER_CLOSED ∧
       (quic_frame_connection_close_process env st
         (quic_put_var err ++
           (if ty = QUIC_FRAME_CONNECTION_CLOSE then quic_put_var ftype else []) ++
           quic_put_var plen ++ tail) ty).events = [Ev.stateChange]) := by
  rcases hty with hty | hty <;> subst hty
  · simp only [quic_frame_connection_close_process, QUIC_FRAME_CONNECTION_CLOSE,
      reduceIte, List.append_assoc, quic_get_put err _ herr, quic_get_put ftype _ hft]
    have h := connCloseTail_spec st
      (quic_put_var err ++ (quic_put_var ftype ++ (quic_put_var plen ++ tail)))
      err ftype plen tail 28 hplv hlen
    refine ⟨fun hbad => ?_, fun hgood => ?_⟩
    · exact h.1 hbad
    · rw [h.2 hgood]
      exact ⟨rfl, rfl, rfl⟩
  · simp only [quic_frame_connection_close_process, QUIC_FRAME_CONNECTION_CLOSE,
      (by decide : ((29 : Nat) = 28) = False), if_false, List.append_assoc,
      List.nil_append, quic_get_put err _ herr]
    have h := connCloseTail_spec st
      (quic_put_var err ++ (quic_put_var plen ++ tail)) err 0 plen tail 29 hplv hlen
    refine ⟨fun hbad => ?_, fun hgood => ?_⟩
    · exact h.1 hbad
    · rw [h.2 hgood]
      exact ⟨rfl, rfl, rfl⟩

theorem c5_connection_close_witness :
    (((29 : Nat) = 28 ∨ (29 : Nat) = 29) ∧ (10 : Nat) < 4611686018427387904 ∧
      ((0 : Nat) = 0 ∨ ((0 : Nat) ≤ 80 ∧ ([] : List Nat).getD (0 - 1) 0 = 0))) ∧
    ((quic_frame_connection_close_process {} {} [10, 0] 29).st.skErr = -EPIPE ∧
     (quic_frame_connection_close_process {} {} [10, 0] 29).st.skState =
       QUIC_STATE_USER_CLOSED ∧
     (quic_frame_connection_close_process {} {} [10, 0] 29).events = [Ev.stateChange]) := by
  refine ⟨⟨Or.inr rfl, by decide, Or.inl rfl⟩, ?_⟩
  have h := (c5_connection_close {} {} 29 10 0 0 [] (Or.inr rfl) (by decide) (by decide)
    (by decide) (by decide)).2 (Or.inl rfl)
  simpa using h

def streamSendOffset (st : Conn) (sid : Nat) : Nat :=
  ((quic_stream_find st.streams sid).map fun s => s.send.offset).getD 0

theorem quic_stream_find_update (streams : List QuicStream) (sid : Nat)
    (f : QuicStream → QuicStream) (hf : ∀ s, (f s).id = s.id) :
    quic_stream_find (streamsUpdate streams sid f) sid =
      (quic_stream_find streams sid).map f := by
  induction streams with
  | nil => rfl
  | cons s rest ih =>
    by_cases h : s.id = sid
    · have h1 : (s.id == sid) = true := by simp [h]
      have h2 : ((f s).id == sid) = true := by simp [hf, h]
      simp [streamsUpdate, quic_stream_find, h1, h2, List.find?_cons_of_pos]
      exact Or.inl ⟨by simp [h, hf], fun hc => absurd h hc⟩
    · have h1 : (s.id == sid) = false := by simp [h]
      simp only [streamsUpdate, quic_stream_find, List.map_cons, h1, Bool.false_eq_true,
        if_false] at ih ⊢
      rw [List.find?_cons_of_neg _ (by simp [h]), List.find?_cons_of_neg _ (by simp [h])]
      exact ih

/-- C7: for every successful STREAM encode, the OFF bit (0x04) of the emitted type
byte is set iff the stream send offset was positive before the encode, and the
send offset afterwards equals the old offset plus the number of payload bytes
placed in the frame (the QUIC_SND_CB data_bytes tag); on any encoder failure
(allocation or copy) the connection state, and with it the send offset, is
unchanged. -/
theorem c7_stream_offset (env : Env) (st : Conn) (info : MsgInfo) :
    (∀ skb st2,
       quic_frame_stream_create env st (CreateData.msg info) 8 = (some skb, st2) →
       ((skb.bytes.headD 0) % 8 / 4 = 1 ↔ 0 < streamSendOffset st info.sid) ∧
       streamSendOffset st2 info.sid = streamSendOffset st info.sid + skb.dataBytes) ∧
    (∀ st2, quic_frame_stream_create env st (CreateData.msg info) 8 = (none, st2) →
       st2 = st) := by
  have hupd : ∀ n, quic_stream_find
      (streamsUpdate st.streams info.sid fun s =>
        { s with send := { s.send with offset := s.send.offset + n } }) info.sid =
      (quic_stream_find st.streams info.sid).map fun s =>
        { s with send := { s.send with offset := s.send.offset + n } } :=
    fun n => quic_stream_find_update st.streams info.sid _ (fun s => rfl)
  cases hfind : quic_stream_find st.streams info.sid with
  | none =>
    constructor
    · intro skb st2 h
      unfold quic_frame_stream_create at h
      simp only [hfind] at h
      simp at h
    · intro st2 h
      unfold quic_frame_stream_create at h
      simp only [hfind] at h
      simpa using h.symm
  | some stream =>
    have hoffs : streamSendOffset st info.sid = stream.send.offset := by
      simp [streamSendOffset, hfind]
    constructor
    · intro skb st2 h
      unfold quic_frame_stream_create at h
      simp only [hfind] at h
      cases halloc : env.allocOK with
      | false => simp [halloc] at h
      | true =>
      cases hcopy : env.copyOK with
      | false => simp [halloc, hcopy] at h
      | true =>
      by_cases hoff : stream.send.offset = 0 <;>
        simp only [halloc, hcopy, hoff, Bool.not_true, Bool.false_eq_true, if_false,
          Bool.true_and, ne_eq, not_true_eq_false, not_false_eq_true, if_true, ite_true,
          ite_false] at h
      · by_cases hfit : info.msg.length ≤ sub32 (env.maxPayload % 4294967296)
            (1 + quic_var_len stream.id + quic_var_len (env.maxPayload % 4294967296))
        · by_cases hflag : info.flag % 2 = 1 <;>
            simp only [hfit, hflag, if_true, ite_true, eq_self_iff_true, and_true,
              and_false, if_false, ite_false, le_refl, decide_True, Bool.not_true,
              Bool.false_eq_true, Option.some.injEq, Prod.mk.injEq] at h <;>
          obtain ⟨h1, h2⟩ := h <;> subst h1 <;> subst h2 <;>
          refine ⟨?_, ?_⟩ <;>
          simp [quic_put_var_small, hoffs, hoff, hupd, hfind, streamSendOffset,
            (by decide : (8 ||| 2 ||| 1 : Nat) = 11), (by decide : (8 ||| 2 : Nat) = 10)]
        · have hge : sub32 (env.maxPayload % 4294967296)
              (1 + quic_var_len stream.id + quic_var_len (env.maxPayload % 4294967296)) ≤
              info.msg.length := by omega
          by_cases hflag : info.flag % 2 = 1 <;>
            simp only [hfit, hflag, hge, if_true, ite_true, eq_self_iff_true, and_true,
              and_false, false_and, if_false, ite_false, decide_True, Bool.not_true,
              Bool.false_eq_true, Option.some.injEq, Prod.mk.injEq] at h <;>
          obtain ⟨h1, h2⟩ := h <;> subst h1 <;> subst h2 <;>
          refine ⟨?_, ?_⟩ <;>
          simp [quic_put_var_small, hoffs, hoff, hupd, hfind, streamSendOffset,
            (by decide : (8 ||| 2 ||| 1 : Nat) = 11), (by decide : (8 ||| 2 : Nat) = 10)]
      · by_cases hfit : info.msg.length ≤ sub32 (env.maxPayload % 4294967296)
            (1 + quic_var_len stream.id + quic_var_len stream.send.offset +
              quic_var_len (env.maxPayload % 4294967296))
        · by_cases hflag : info.flag % 2 = 1 <;>
            simp only [hfit, hflag, if_true, ite_true, eq_self_iff_true, and_true,
              and_false, if_false, ite_false, le_refl, decide_True, Bool.not_true,
              Bool.false_eq_true, Option.some.injEq, Prod.mk.injEq] at h <;>
          obtain ⟨h1, h2⟩ := h <;> subst h1 <;> subst h2 <;>
          refine ⟨?_, ?_⟩ <;>
          simp [quic_put_var_small, hoffs, hoff, hupd, hfind, streamSendOffset,
            Nat.pos_of_ne_zero,
            (by decide : (8 ||| 4 ||| 2 ||| 1 : Nat) = 15), (by decide : (8 ||| 4 ||| 2 : Nat) = 14)]
        · have hge : sub32 (env.maxPayload % 4294967296)
              (1 + quic_var_len stream.id + quic_var_len stream.send.offset +
                quic_var_len (env.maxPayload % 4294967296)) ≤ info.msg.length := by omega
          by_cases hflag : info.flag % 2 = 1 <;>
            simp only [hfit, hflag, hge, if_true, ite_true, eq_self_iff_true, and_true,
              and_false, false_and, if_false, ite_false, decide_True, Bool.not_true,
              Bool.false_eq_true, Option.some.injEq, Prod.mk.injEq] at h <;>
          obtain ⟨h1, h2⟩ := h <;> subst h1 <;> subst h2 <;>
          refine ⟨?_, ?_⟩ <;>
          simp [quic_put_var_small, hoffs, hoff, hupd, hfind, streamSendOffset,
            Nat.pos_of_ne_zero,
            (by decide : (8 ||| 4 ||| 2 ||| 1 : Nat) = 15), (by decide : (8 ||| 4 ||| 2 : Nat) = 14)]
    · intro st2 h
      unfold quic_frame_stream_create at h
      simp only [hfind] at h
      cases halloc : env.allocOK with
      | false => simp [halloc] at h; simp [h]
      | true =>
      cases hcopy : env.copyOK with
      | false => simp [halloc, hcopy] at h; simp [h]
      | true =>
      simp only [halloc, hcopy, Bool.not_true, Bool.false_eq_true, if_false,
        Bool.true_and] at h
      by_cases hoff : stream.send.offset = 0 <;> simp only [hoff, ne_eq,
        not_true_eq_false, not_false_eq_true, if_true, if_false, ite_true, ite_false] at h
      · by_cases hfit : info.msg.length ≤ sub32 (env.maxPayload % 4294967296)
            (1 + quic_var_len stream.id + quic_var_len (env.maxPayload % 4294967296))
        · simp [hfit] at h
        · have hge : sub32 (env.maxPayload % 4294967296)
              (1 + quic_var_len stream.id + quic_var_len (env.maxPayload % 4294967296)) ≤
              info.msg.length := by omega
          simp [hfit, hge] at h
      · by_cases hfit : info.msg.length ≤ sub32 (env.maxPayload % 4294967296)
            (1 + quic_var_len stream.id + quic_var_len stream.send.offset +
              quic_var_len (env.maxPayload % 4294967296))
        · simp [hfit] at h
        · have hge : sub32 (env.maxPayload % 4294967296)
              (1 + quic_var_len stream.id + quic_var_len stream.send.offset +
                quic_var_len (env.maxPayload % 4294967296)) ≤ info.msg.length := by omega
          simp [hfit, hge] at h


theorem c7_stream_offset_witness :
    (([11, 4, 2, 104, 105] : List Nat).headD 0 % 8 / 4 = 1 ↔
      0 < streamSendOffset { streams := [{ id := 4 }] } 4) ∧
    streamSendOffset { streams := [{ id := 4, send := { offset := 2 } }] } 4 =
      streamSendOffset { streams := [{ id := 4 }] } 4 + 2 :=
  (c7_stream_offset {} { streams := [{ id := 4 }] }
      { sid := 4, flag := 1, msg := [104, 105] }).1
    { bytes := [11, 4, 2, 104, 105], frameType := 11, dataBytes := 2, streamOffset := 0,
      errCode := 0, streamId := some 4, fr := Frame.stream 4 0 true [104, 105] }
    { streams := [{ id := 4, send := { offset := 2 } }] } (by decide)

/-- C10: the NEW_TOKEN and CRYPTO decoders duplicate the received payload bytes
first and only afterwards replace the stored address validation token
(respectively session ticket): when the duplication fails with an allocation error
they return minus ENOMEM and the connection state, including the previously stored
token and ticket, is completely unchanged; on success the stored value becomes the
received bytes. -/
theorem c10_token_ticket_replace (env : Env) (st : Conn) (t rest : List Nat)
    (ht : t.length < 4611686018427387904) (hne : t ≠ []) (hmark : t.headD 0 = 4) :
    (env.allocOK = false →
       (quic_frame_new_token_process env st (quic_put_var t.length ++ t ++ rest) 7).ret
           = -ENOMEM ∧
       (quic_frame_new_token_process env st (quic_put_var t.length ++ t ++ rest) 7).st
           = st ∧
       (quic_frame_crypto_process env st
           (quic_put_var 0 ++ quic_put_var t.length ++ t ++ rest) 6).ret = -ENOMEM ∧
       (quic_frame_crypto_process env st
           (quic_put_var 0 ++ quic_put_var t.length ++ t ++ rest) 6).st = st) ∧
    (env.allocOK = true →
       (quic_frame_new_token_process env st
           (quic_put_var t.length ++ t ++ rest) 7).st.token = t ∧
       (quic_frame_crypto_process env st
           (quic_put_var 0 ++ quic_put_var t.length ++ t ++ rest) 6).st.ticket = t) := by
  rcases t with _ | ⟨a, t2⟩
  · exact absurd rfl hne
  · have hmark2 : a = 4 := by simpa using hmark
    subst hmark2
    have hget : quic_get_var (quic_put_var (4 :: t2).length ++ ((4 :: t2) ++ rest)) =
        some ((4 :: t2).length, (4 :: t2) ++ rest) := quic_get_put _ _ ht
    have hget0 : quic_get_var (quic_put_var 0 ++ (quic_put_var (4 :: t2).length ++
        ((4 :: t2) ++ rest))) =
          some (0, quic_put_var (4 :: t2).length ++ ((4 :: t2) ++ rest)) :=
      quic_get_put _ _ (by norm_num)
    have htake : ((4 :: t2) ++ rest).take (4 :: t2).length = 4 :: t2 :=
      List.take_left (4 :: t2) rest
    simp only [List.length_cons, List.cons_append] at hget hget0 htake
    constructor
    · intro halloc
      refine ⟨?_, ?_, ?_, ?_⟩
      · simp only [quic_frame_new_token_process, List.append_assoc, List.cons_append,
          List.length_cons, hget]
        rw [if_neg (by simp [List.length_append])]
        simp [halloc]
      · simp only [quic_frame_new_token_process, List.append_assoc, List.cons_append,
          List.length_cons, hget]
        rw [if_neg (by simp [List.length_append])]
        simp [halloc]
      · simp only [quic_frame_crypto_process, List.append_assoc, List.cons_append,
          List.length_cons, hget0, hget]
        rw [if_neg (by norm_num), if_neg (by simp [List.length_append])]
        simp [halloc]
      · simp only [quic_frame_crypto_process, List.append_assoc, List.cons_append,
          List.length_cons, hget0, hget]
        rw [if_neg (by norm_num), if_neg (by simp [List.length_append])]
        simp [halloc]
    · intro halloc
      constructor
      · simp only [quic_frame_new_token_process, List.append_assoc, List.cons_append,
          List.length_cons, hget]
        rw [if_neg (by simp [List.length_append])]
        simp [halloc, htake]
      · simp only [quic_frame_crypto_process, List.append_assoc, List.cons_append,
          List.length_cons, hget0, hget]
        rw [if_neg (by norm_num), if_neg (by simp [List.length_append])]
        simp [halloc, htake]

theorem c10_token_ticket_replace_witness :
    ((quic_frame_new_token_process { allocOK := false } {} [1, 4] 7).ret = -ENOMEM ∧
     (quic_frame_new_token_process { allocOK := false } {} [1, 4] 7).st = ({} : Conn) ∧
     (quic_frame_crypto_process { allocOK := false } {} [0, 1, 4] 6).ret = -ENOMEM ∧
     (quic_frame_crypto_process { allocOK := false } {} [0, 1, 4] 6).st = ({} : Conn)) ∧
    ((quic_frame_new_token_process {} {} [1, 4] 7).st.token = [4] ∧
     (quic_frame_crypto_process {} {} [0, 1, 4] 6).st.ticket = [4]) :=
  ⟨(c10_token_ticket_replace { allocOK := false } {} [4] [] (by decide) (by decide)
      (by decide)).1 rfl,
   (c10_token_ticket_replace {} {} [4] [] (by decide) (by decide) (by decide)).2 rfl⟩

/-- Wire bytes of the extra ACK ranges: one gap and one range VarInt per pair. -/
def ackPairsBytes : List (Nat × Nat) → List Nat
  | [] => []
  | p :: ps => quic_put_var p.1 ++ quic_put_var p.2 ++ ackPairsBytes ps

/-- Retransmit check calls the ACK claim describes for the extra ranges: from the
running smallest, largest becomes smallest minus gap minus 2 and smallest becomes
largest minus range (wrapping u64 arithmetic), with one call per pair. -/
def ackSpecCalls (smallest : Nat) : List (Nat × Nat) → List (Nat × Nat × Nat × Nat)
  | [] => []
  | p :: ps =>
    let l := sub64 (sub64 smallest p.1) 2
    let s2 := sub64 l p.2
    (l, s2, 0, 0) :: ackSpecCalls s2 ps

theorem ackRanges_enc (pairs : List (Nat × Nat)) (smallest : Nat) (rest : List Nat)
    (hp : ∀ p ∈ pairs, p.1 < 4611686018427387904 ∧ p.2 < 4611686018427387904) :
    ackRanges pairs.length smallest (ackPairsBytes pairs ++ rest) =
      (ackSpecCalls smallest pairs, rest, true) := by
  induction pairs generalizing smallest with
  | nil => rfl
  | cons p ps ih =>
    have hp1 := (hp p (by simp)).1
    have hp2 := (hp p (by simp)).2
    simp only [ackPairsBytes, ackSpecCalls, List.length_cons, ackRanges,
      List.append_assoc, quic_get_put p.1 _ hp1, quic_get_put p.2 _ hp2]
    rw [ih _ (fun q hq => hp q (by simp [hq]))]

/-- C3: the ACK decoder returns minus EINVAL when the range count exceeds 16 with
no retransmit_check call made; otherwise it computes smallest as largest minus
first_range (wrapping u64) and calls OutQ.retransmit_check(largest, smallest,
largest, delay) once, then for each of the count extra gap and range pairs in
order updates largest to smallest minus gap minus 2 and smallest to largest minus
range and calls retransmit_check(largest, smallest, 0, 0); consumed bytes cover
the whole encoded frame. For a packet number map holding only packet 7 the encoder
emits 0x02 0x07 0x00 0x00 0x00 and decoding its payload calls
retransmit_check(7, 7, 7, 0) exactly once, consuming 4 bytes. -/
theorem c3_ack_process (env : Env) (st : Conn) (largest delay range : Nat)
    (pairs : List (Nat × Nat)) (hl : largest < 4611686018427387904)
    (hd : delay < 4611686018427387904) (hr : range < 4611686018427387904)
    (hc : pairs.length < 4611686018427387904)
    (hp : ∀ p ∈ pairs, p.1 < 4611686018427387904 ∧ p.2 < 4611686018427387904) :
    (pairs.length ≤ 16 →
       (quic_frame_ack_process env st
           (quic_put_var largest ++ quic_put_var delay ++ quic_put_var pairs.length ++
             quic_put_var range ++ ackPairsBytes pairs) 2).rtx =
         (largest, sub64 largest range, largest, delay) ::
           ackSpecCalls (sub64 largest range) pairs ∧
       (quic_frame_ack_process env st
           (quic_put_var largest ++ quic_put_var delay ++ quic_put_var pairs.length ++
             quic_put_var range ++ ackPairsBytes pairs) 2).ret =
         Int.ofNat (quic_put_var largest ++ quic_put_var delay ++
             quic_put_var pairs.length ++ quic_put_var range ++
             ackPairsBytes pairs).length ∧
       (quic_frame_ack_process env st
           (quic_put_var largest ++ quic_put_var delay ++ quic_put_var pairs.length ++
             quic_put_var range ++ ackPairsBytes pairs) 2).st = st) ∧
    (pairs.length > 16 →
       quic_frame_ack_process env st
           (quic_put_var largest ++ quic_put_var delay ++ quic_put_var pairs.length ++
             quic_put_var range ++ ackPairsBytes pairs) 2 = DecOut.inval st) ∧
    (quic_frame_ack_create {} { pnmap := { maxPnSeen := 7, minPnSeen := 7 } }
        CreateData.noData 2).1.map Skb.bytes = some [2, 7, 0, 0, 0] ∧
    (quic_frame_ack_process {} {} [7, 0, 0, 0] 2).rtx = [(7, 7, 7, 0)] ∧
    (quic_frame_ack_process {} {} [7, 0, 0, 0] 2).ret = 4 := by
  refine ⟨fun h16 => ?_, fun h16 => ?_, by decide, by decide, by decide⟩
  · simp only [quic_frame_ack_process, List.append_assoc, quic_get_put largest _ hl,
      quic_get_put delay _ hd, quic_get_put pairs.length _ hc, quic_get_put range _ hr]
    rw [if_neg (by omega)]
    have hA : ackRanges pairs.length (sub64 largest range) (ackPairsBytes pairs) =
        (ackSpecCalls (sub64 largest range) pairs, [], true) := by
      simpa using ackRanges_enc pairs (sub64 largest range) [] hp
    rw [hA]
    simp [QUIC_FRAME_ACK_ECN, List.length_append]
  · simp only [quic_frame_ack_process, List.append_assoc, quic_get_put largest _ hl,
      quic_get_put delay _ hd, quic_get_put pairs.length _ hc]
    rw [if_pos (by omega)]

theorem c3_ack_process_witness :
    (quic_frame_ack_process {} {} [7, 0, 1, 0, 1, 1] 2).rtx =
      [(7, 7, 7, 0), (4, 3, 0, 0)] ∧
    (quic_frame_ack_process {} {} [7, 0, 1, 0, 1, 1] 2).ret = 6 := by
  have h := (c3_ack_process {} {} 7 0 0 [(1, 1)] (by decide) (by decide) (by decide)
      (by decide) (by decide)).1 (by decide)
  exact ⟨by simpa using h.1, by simpa using h.2.1⟩
